import Mathlib

/-!
Shallow embedding of the `hushed_panic` crate (`src/lib.rs`).

The crate keeps one process-wide global,
`HUSHED_THREADS : OnceCell<(Box<dyn Fn(&PanicInfo)>, Mutex<HashSet<ThreadId>>)>`,
holding the captured original panic hook together with the set of hushed
thread ids, and installs `husher_hook` as the process panic hook when the
cell is first initialized.

We model thread ids as `Nat`, panic reports as `String`, an installed panic
hook as the inductive `PanicHook` (the process default hook, a user-installed
custom hook, or the crate's `husher_hook`), and a process state `ProcState`
carrying the cell contents and the currently installed hook.  The observable
behaviour of the hook on one fault is a list of `HookEvent`s: either a call
of a captured hook with the unmodified report, or the fixed diagnostic line
the code prints in the unreachable uninitialized branch.
-/

abbrev ThreadId := Nat

abbrev PanicInfo := String

/-- A process panic hook value: the process default hook, some user-installed
custom hook (identified by a tag), or this crate's `husher_hook`. -/
inductive PanicHook where
  | default : PanicHook
  | custom : Nat → PanicHook
  | husher : PanicHook
deriving DecidableEq, Repr

/-- Contents of the `HUSHED_THREADS` cell once initialized: the captured
original hook and the mutex-protected set of hushed thread ids. -/
abbrev CellContents := PanicHook × Finset ThreadId

/-- Process state: the `HUSHED_THREADS` once-cell (`none` = uninitialized)
and the panic hook currently registered with the runtime. -/
structure ProcState where
  cell : Option CellContents
  hook : PanicHook
deriving DecidableEq

/-- The hushed-thread membership set visible to the hook: empty while the
cell is uninitialized, otherwise the set stored in the cell. -/
def ProcState.hushedSet (s : ProcState) : Finset ThreadId :=
  match s.cell with
  | none => ∅
  | some (_, m) => m

/-- Observable events of one invocation of the panic hook:
`call f info` is an invocation of hook `f` with the unmodified report `info`;
`somethingWentWrong` is the fixed diagnostic line
("Something went wrong! Please report to hushed_panic github.") printed by
the `unwrap_or_else` fallback branch of `husher_hook`. -/
inductive HookEvent where
  | call : PanicHook → PanicInfo → HookEvent
  | somethingWentWrong : HookEvent
deriving DecidableEq, Repr

/-- `std::panic::take_hook()`: returns the currently installed hook and
re-registers the process default hook. -/
def take_hook (s : ProcState) : PanicHook × ProcState :=
  (s.hook, { s with hook := PanicHook.default })

/-- `std::panic::set_hook(h)`: registers `h` as the process panic hook. -/
def set_hook (h : PanicHook) (s : ProcState) : ProcState :=
  { s with hook := h }

/-- `init_hushed_threads`: captures the original hook via `take_hook`, then
installs `husher_hook` via `set_hook`, and returns the captured original
paired with an empty hushed set. -/
def init_hushed_threads (s : ProcState) : CellContents × ProcState :=
  let p := take_hook s
  let s2 := set_hook PanicHook.husher p.2
  ((p.1, ∅), s2)

/-- `HUSHED_THREADS.get_or_init(init_hushed_threads)`: returns the cell
contents, running `init_hushed_threads` exactly once if the cell is empty
(the `OnceCell` guarantees the closure runs at most once even under
concurrent first calls; we model `get_or_init` as one atomic step). -/
def get_or_init (s : ProcState) : CellContents × ProcState :=
  match s.cell with
  | some v => (v, s)
  | none =>
    let p := init_hushed_threads s
    (p.1, { p.2 with cell := some p.1 })

/-- The body of `husher_hook` after the spin-wait: reads the cell; if it is
`some (f, x)` it calls `f(panic_info)` exactly when the faulting thread id is
not in `x` (and emits nothing otherwise); on `none` the `unwrap_or_else`
branch prints the fixed diagnostic line. -/
def husher_hook_body (cell : Option CellContents) (thread_id : ThreadId)
    (panic_info : PanicInfo) : List HookEvent :=
  match cell with
  | some (f, x) =>
      if thread_id ∈ x then [] else [HookEvent.call f panic_info]
  | none => [HookEvent.somethingWentWrong]

/-- The spin-wait loop `while HUSHED_THREADS.get().is_none() { spin_loop() }`
of `husher_hook`, modelled against a trace `trace : Nat → Option CellContents`
of the values successive `get()` calls observe, with explicit fuel (the
number of remaining `get()` calls we examine): returns the index and value of
the first `some` observation, or `none` if the cell was never observed
initialized within the fuel. -/
def spin_wait (trace : Nat → Option CellContents) :
    Nat → Nat → Option (Nat × CellContents)
  | 0, _ => none
  | fuel + 1, t =>
    match trace t with
    | some r => some (t, r)
    | none => spin_wait trace fuel (t + 1)

/-- `husher_hook` as invoked on a fault: spin-waits until the cell is
observed initialized, then runs the body on the observed contents; produces
no decision at all (`none`) while the wait has not completed. -/
def husher_hook (trace : Nat → Option CellContents) (fuel : Nat)
    (thread_id : ThreadId) (panic_info : PanicInfo) : Option (List HookEvent) :=
  (spin_wait trace fuel 0).map fun p => husher_hook_body (some p.2) thread_id panic_info

/-- `hush_panic()`: `get_or_init`, then insert the current thread id into the
mutex-protected set inside the cell. -/
def hush_panic (thread_id : ThreadId) (s : ProcState) : ProcState :=
  let p := get_or_init s
  { p.2 with cell := some (p.1.1, insert thread_id p.1.2) }

/-- `unhush_panic()`: `get_or_init`, then remove the current thread id from
the set, returning whether it was present. -/
def unhush_panic (thread_id : ThreadId) (s : ProcState) : Bool × ProcState :=
  let p := get_or_init s
  (thread_id ∈ p.1.2, { p.2 with cell := some (p.1.1, p.1.2.erase thread_id) })

/-- `HushGuard { internal: PhantomData<*const ()> }`: the guard stores no
thread identity — `PhantomData` is a zero-sized marker, modelled as `Unit`.
Because `*const ()` is neither `Send` nor `Sync`, a `HushGuard` value can
never leave its creating thread, so any drop of the guard executes on the
creating thread; theorems state this type-level confinement as the
hypothesis that the dropping thread equals the creating thread. -/
structure HushGuard where
  internal : Unit
deriving DecidableEq, Repr

/-- `hush_this_test()`: calls `hush_panic()` on the current thread and
returns a `HushGuard`. -/
def hush_this_test (thread_id : ThreadId) (s : ProcState) : HushGuard × ProcState :=
  (⟨()⟩, hush_panic thread_id s)

/-- `impl Drop for HushGuard`: dropping the guard calls `unhush_panic()` for
the thread the drop executes on (`current` — the guard itself records no
identity). -/
def HushGuard.drop (_ : HushGuard) (current : ThreadId) (s : ProcState) : ProcState :=
  (unhush_panic current s).2

/-- One public operation of the crate, tagged with the thread performing it:
`hush`/`unhush` are `hush_panic`/`unhush_panic`, `hushTest` is
`hush_this_test`, `dropG` is the drop of a `HushGuard` on that thread. -/
inductive Op where
  | hush : ThreadId → Op
  | unhush : ThreadId → Op
  | hushTest : ThreadId → Op
  | dropG : ThreadId → Op
deriving DecidableEq, Repr

/-- Effect of one public operation on the process state. -/
def step (s : ProcState) : Op → ProcState
  | Op.hush tid => hush_panic tid s
  | Op.unhush tid => (unhush_panic tid s).2
  | Op.hushTest tid => (hush_this_test tid s).2
  | Op.dropG tid => HushGuard.drop ⟨()⟩ tid s

/-- Effect of a sequence of public operations. -/
def run (s : ProcState) (ops : List Op) : ProcState :=
  ops.foldl step s

/-- A fresh process: cell uninitialized, default panic hook installed. -/
def freshState : ProcState :=
  { cell := none, hook := PanicHook.default }

/-! ### Helper lemmas -/

theorem hushedSet_hush_panic (tid : ThreadId) (s : ProcState) :
    (hush_panic tid s).hushedSet = insert tid s.hushedSet := by
  rcases s with ⟨c, hk⟩
  rcases c with _ | ⟨o, m⟩ <;> rfl

theorem hushedSet_unhush_panic (tid : ThreadId) (s : ProcState) :
    ((unhush_panic tid s).2).hushedSet = s.hushedSet.erase tid := by
  rcases s with ⟨c, hk⟩
  rcases c with _ | ⟨o, m⟩ <;> rfl

theorem unhush_panic_fst (tid : ThreadId) (s : ProcState) :
    (unhush_panic tid s).1 = decide (tid ∈ s.hushedSet) := by
  rcases s with ⟨c, hk⟩
  rcases c with _ | ⟨o, m⟩ <;> rfl

/-! ### Claim theorems -/

/-- C1: once the registry cell is initialized with captured original `f` and
hushed set `x`, the installed `husher_hook` invokes the captured original
hook with the unmodified report exactly when the faulting thread id is
absent from `x`, and emits nothing when it is present; in particular a fault
on a hushed thread A is silent while a fault on a non-hushed thread B is
forwarded to `f` unmodified. -/
theorem husher_hook_isolation (f : PanicHook) (x : Finset ThreadId) (fuel : Nat)
    (tidA tidB : ThreadId) (infoA infoB : PanicInfo)
    (hA : tidA ∈ x) (hB : tidB ∉ x) :
    husher_hook (fun _ => some (f, x)) (fuel + 1) tidA infoA = some [] ∧
    husher_hook (fun _ => some (f, x)) (fuel + 1) tidB infoB
      = some [HookEvent.call f infoB] ∧
    (∀ tid info, husher_hook_body (some (f, x)) tid info = [] ↔ tid ∈ x) ∧
    (∀ tid info, husher_hook_body (some (f, x)) tid info
      = [HookEvent.call f info] ↔ tid ∉ x) := by
  refine ⟨?_, ?_, ?_, ?_⟩
  · simp [husher_hook, spin_wait, husher_hook_body, hA]
  · simp [husher_hook, spin_wait, husher_hook_body, hB]
  · intro tid info
    by_cases h : tid ∈ x <;> simp [husher_hook_body, h]
  · intro tid info
    by_cases h : tid ∈ x <;> simp [husher_hook_body, h]

/-- C1 witness: concrete instance with thread 0 hushed and thread 1 not. -/
theorem husher_hook_isolation_witness :
    (0 : ThreadId) ∈ ({0} : Finset ThreadId) ∧ (1 : ThreadId) ∉ ({0} : Finset ThreadId) ∧
    husher_hook (fun _ => some (PanicHook.default, ({0} : Finset ThreadId))) 1 0 "a" = some [] ∧
    husher_hook (fun _ => some (PanicHook.default, ({0} : Finset ThreadId))) 1 1 "b"
      = some [HookEvent.call PanicHook.default "b"] :=
  ⟨by decide, by decide,
   (husher_hook_isolation PanicHook.default {0} 0 0 1 "a" "b" (by decide) (by decide)).1,
   (husher_hook_isolation PanicHook.default {0} 0 0 1 "a" "b" (by decide) (by decide)).2.1⟩

/-- C5: `unhush_panic` returns `true` iff the calling thread id was in the
membership set immediately before the call, and afterwards the id is absent
from the set. -/
theorem unhush_panic_prior_membership (s : ProcState) (tid : ThreadId) :
    ((unhush_panic tid s).1 = true ↔ tid ∈ s.hushedSet) ∧
    tid ∉ ((unhush_panic tid s).2).hushedSet := by
  refine ⟨?_, ?_⟩
  · rw [unhush_panic_fst]
    exact decide_eq_true_iff
  · rw [hushedSet_unhush_panic]
    exact Finset.not_mem_erase tid s.hushedSet

/-- C6: `hush_panic` is idempotent — hushing twice yields exactly the same
process state as hushing once (the `HashSet` absorbs the duplicate), the
thread is hushed afterwards, and a single `unhush_panic` then fully
unhushes it. -/
theorem hush_panic_idempotent (s : ProcState) (tid : ThreadId) :
    hush_panic tid (hush_panic tid s) = hush_panic tid s ∧
    tid ∈ (hush_panic tid s).hushedSet ∧
    tid ∉ ((unhush_panic tid (hush_panic tid (hush_panic tid s))).2).hushedSet := by
  refine ⟨?_, ?_, ?_⟩
  · rcases s with ⟨c, hk⟩
    rcases c with _ | ⟨o, m⟩ <;>
      simp [hush_panic, get_or_init, init_hushed_threads, take_hook, set_hook,
        Finset.insert_idem]
  · rw [hushedSet_hush_panic]
    exact Finset.mem_insert_self tid s.hushedSet
  · rw [hushedSet_unhush_panic]
    exact Finset.not_mem_erase tid _

/-- C2 counterexample state: thread 0 is already hushed before the guard is
created. -/
def preHushed : ProcState :=
  { cell := some (PanicHook.default, {0}), hook := PanicHook.husher }

/-- C2 counterexample: on a thread that was already hushed before
`hush_this_test()`, dropping the guard leaves the thread unhushed, so the
pre-guard membership state is not restored. -/
theorem guard_roundtrip_counterexample :
    (0 : ThreadId) ∈ preHushed.hushedSet ∧
    (0 : ThreadId) ∉
      (HushGuard.drop (hush_this_test 0 preHushed).1 0 (hush_this_test 0 preHushed).2).hushedSet ∧
    (HushGuard.drop (hush_this_test 0 preHushed).1 0 (hush_this_test 0 preHushed).2).hushedSet
      ≠ preHushed.hushedSet := by
  refine ⟨by decide, by decide, by decide⟩

/-- C2 amended: if the thread was not hushed before the guard was created,
the hush-then-drop round trip restores the membership set exactly; on an
already-hushed thread the drop leaves it unhushed instead (see the
counterexample). -/
theorem guard_roundtrip_restores_unhushed (s : ProcState) (tid : ThreadId)
    (h : tid ∉ s.hushedSet) :
    (HushGuard.drop (hush_this_test tid s).1 tid (hush_this_test tid s).2).hushedSet
      = s.hushedSet := by
  show ((unhush_panic tid (hush_this_test tid s).2).2).hushedSet = s.hushedSet
  rw [hushedSet_unhush_panic]
  show ((hush_panic tid s).hushedSet).erase tid = s.hushedSet
  rw [hushedSet_hush_panic]
  exact Finset.erase_insert h

/-- C2 witness: the amended round trip at a fresh process and thread 0. -/
theorem guard_roundtrip_restores_unhushed_witness :
    (0 : ThreadId) ∉ freshState.hushedSet ∧
    (HushGuard.drop (hush_this_test 0 freshState).1 0 (hush_this_test 0 freshState).2).hushedSet
      = freshState.hushedSet :=
  ⟨by decide, guard_roundtrip_restores_unhushed freshState 0 (by decide)⟩

/-- C3: under the type-level confinement of `HushGuard` (its
`PhantomData<*const ()>` field is neither `Send` nor `Sync`, so the dropping
thread necessarily equals the creating thread), dropping the guard returned
by `hush_this_test` removes exactly the creating thread's identity from the
membership set, so the unhush applies to the identity fixed at guard
construction time. -/
theorem guard_drop_unhushes_creator (s : ProcState) (creator dropper : ThreadId)
    (hconf : dropper = creator) :
    (HushGuard.drop (hush_this_test creator s).1 dropper (hush_this_test creator s).2).hushedSet
      = ((hush_this_test creator s).2.hushedSet).erase creator ∧
    creator ∉
      (HushGuard.drop (hush_this_test creator s).1 dropper (hush_this_test creator s).2).hushedSet := by
  subst hconf
  refine ⟨?_, ?_⟩
  · show ((unhush_panic dropper (hush_this_test dropper s).2).2).hushedSet = _
    rw [hushedSet_unhush_panic]
  · show dropper ∉ ((unhush_panic dropper (hush_this_test dropper s).2).2).hushedSet
    rw [hushedSet_unhush_panic]
    exact Finset.not_mem_erase dropper _

/-- C3 witness: concrete instance at a fresh process, creator = dropper = 0. -/
theorem guard_drop_unhushes_creator_witness :
    (HushGuard.drop (hush_this_test 0 freshState).1 0 (hush_this_test 0 freshState).2).hushedSet
      = ((hush_this_test 0 freshState).2.hushedSet).erase 0 ∧
    (0 : ThreadId) ∉
      (HushGuard.drop (hush_this_test 0 freshState).1 0 (hush_this_test 0 freshState).2).hushedSet :=
  guard_drop_unhushes_creator freshState 0 0 rfl

/-- C10: the guard records no thread identity (any two guards drop
identically), and because `PhantomData<*const ()>` makes `HushGuard` neither
`Send` nor `Sync` the drop executes on the creating thread, so the unhush
performed in `Drop` always targets the creating thread's identity. -/
theorem hush_guard_no_identity_drop_targets_creator (g g' : HushGuard)
    (creator dropper : ThreadId) (s : ProcState) (hconf : dropper = creator) :
    HushGuard.drop g dropper s = HushGuard.drop g' dropper s ∧
    (HushGuard.drop g dropper s).hushedSet = s.hushedSet.erase creator := by
  subst hconf
  exact ⟨rfl, hushedSet_unhush_panic dropper s⟩

/-- C10 witness: concrete guards on thread 2 of a fresh process. -/
theorem hush_guard_no_identity_drop_targets_creator_witness :
    HushGuard.drop ⟨()⟩ 2 freshState = HushGuard.drop ⟨()⟩ 2 freshState ∧
    (HushGuard.drop ⟨()⟩ 2 freshState).hushedSet = freshState.hushedSet.erase 2 :=
  hush_guard_no_identity_drop_targets_creator ⟨()⟩ ⟨()⟩ 2 2 freshState rfl

/-- C4 counterexample: in the uninitialized (impossible) registry state the
hook does not forward the report to any original behavior — it prints the
fixed "something went wrong" diagnostic line instead, a substitute output. -/
theorem husher_hook_uninit_counterexample :
    husher_hook_body none 0 "boom" = [HookEvent.somethingWentWrong] ∧
    husher_hook_body none 0 "boom" ≠ [HookEvent.call PanicHook.default "boom"] := by
  refine ⟨by decide, by decide⟩

/-- C4 amended: in the impossible internal state the hook never faults and
is not fail-silent — it emits the fixed diagnostic line — but it does not
forward the report to the original behavior (which was never captured);
after the spin-wait this branch is unreachable. -/
theorem husher_hook_uninit_nonsilent (tid : ThreadId) (info : PanicInfo) :
    husher_hook_body none tid info = [HookEvent.somethingWentWrong] := rfl

/-! ### Step lemmas for the global cell and hook -/

theorem step_cell_some (s : ProcState) (op : Op) (o : PanicHook) (m : Finset ThreadId)
    (h : s.cell = some (o, m)) :
    ∃ m', (step s op).cell = some (o, m') ∧ (step s op).hook = s.hook := by
  rcases s with ⟨c, hk⟩
  subst h
  rcases op with tid | tid | tid | tid
  · exact ⟨insert tid m, rfl, rfl⟩
  · exact ⟨m.erase tid, rfl, rfl⟩
  · exact ⟨insert tid m, rfl, rfl⟩
  · exact ⟨m.erase tid, rfl, rfl⟩

theorem step_cell_none (s : ProcState) (op : Op) (h : s.cell = none) :
    ∃ m', (step s op).cell = some (s.hook, m') ∧ (step s op).hook = PanicHook.husher := by
  rcases s with ⟨c, hk⟩
  subst h
  rcases op with tid | tid | tid | tid
  · exact ⟨insert tid ∅, rfl, rfl⟩
  · exact ⟨(∅ : Finset ThreadId).erase tid, rfl, rfl⟩
  · exact ⟨insert tid ∅, rfl, rfl⟩
  · exact ⟨(∅ : Finset ThreadId).erase tid, rfl, rfl⟩

theorem run_preserves_cell (ops : List Op) :
    ∀ (s : ProcState) (o : PanicHook) (m : Finset ThreadId), s.cell = some (o, m) →
      ∃ m', (run s ops).cell = some (o, m') ∧ (run s ops).hook = s.hook := by
  induction ops with
  | nil => exact fun s o m h => ⟨m, h, rfl⟩
  | cons op rest ih =>
    intro s o m h
    obtain ⟨m1, h1, h2⟩ := step_cell_some s op o m h
    obtain ⟨m2, h3, h4⟩ := ih (step s op) o m1 h1
    exact ⟨m2, h3, h4.trans h2⟩

/-- C7: the captured original hook is written into the cell exactly once.
If the cell already holds captured original `o`, any sequence of public
operations leaves `o` in place (never overwritten) and does not touch the
installed process hook; if the cell is uninitialized, the first public
operation captures exactly the hook installed at that moment (`s.hook` —
captured by `take_hook` before `set_hook` installs `husher_hook`) and every
later state still holds that same captured original, with `husher_hook`
installed.  `get_or_init` is the `OnceCell` primitive, modelled as one
atomic step, which is what makes concurrent first calls converge on a
single initialization. -/
theorem original_captured_once (ops : List Op) (s : ProcState) :
    (∀ o m, s.cell = some (o, m) →
      ((run s ops).cell).map Prod.fst = some o ∧ (run s ops).hook = s.hook) ∧
    (s.cell = none → ∀ op rest, ops = op :: rest →
      ((run s ops).cell).map Prod.fst = some s.hook ∧
        (run s ops).hook = PanicHook.husher) := by
  constructor
  · intro o m h
    obtain ⟨m', h1, h2⟩ := run_preserves_cell ops s o m h
    exact ⟨by rw [h1]; rfl, h2⟩
  · intro h op rest hops
    subst hops
    obtain ⟨m1, h1, h2⟩ := step_cell_none s op h
    obtain ⟨m2, h3, h4⟩ := run_preserves_cell rest (step s op) s.hook m1 h1
    constructor
    · show ((run (step s op) rest).cell).map Prod.fst = some s.hook
      rw [h3]
      rfl
    · show (run (step s op) rest).hook = PanicHook.husher
      rw [h4, h2]

/-- C7 witness: a state with captured original `custom 7` keeps it across
operations; a fresh process captures its default hook on the first
operation and ends with `husher_hook` installed. -/
theorem original_captured_once_witness :
    ((run { cell := some (PanicHook.custom 7, ∅), hook := PanicHook.husher }
        [Op.hush 0, Op.unhush 0]).cell).map Prod.fst = some (PanicHook.custom 7) ∧
    ((run freshState [Op.unhush 3]).cell).map Prod.fst = some PanicHook.default ∧
    (run freshState [Op.unhush 3]).hook = PanicHook.husher :=
  ⟨((original_captured_once [Op.hush 0, Op.unhush 0]
      { cell := some (PanicHook.custom 7, ∅), hook := PanicHook.husher }).1
      (PanicHook.custom 7) ∅ rfl).1,
   ((original_captured_once [Op.unhush 3] freshState).2 rfl (Op.unhush 3) [] rfl).1,
   ((original_captured_once [Op.unhush 3] freshState).2 rfl (Op.unhush 3) [] rfl).2⟩

/-- C8 counterexample: on a fresh process, `unhush_panic` — not a hush
operation — already installs `husher_hook` and creates the registry,
because `unhush_panic` also calls `get_or_init(init_hushed_threads)`. -/
theorem unhush_installs_hook_counterexample :
    freshState.cell = none ∧ freshState.hook = PanicHook.default ∧
    (step freshState (Op.unhush 0)).hook = PanicHook.husher ∧
    (step freshState (Op.unhush 0)).cell ≠ none := by
  exact ⟨rfl, rfl, rfl, by decide⟩

/-- C8 amended: the hook is installed at most once, and the installation
occurs on the first call to any registry-touching public operation
(`hush_panic`, `unhush_panic`, `hush_this_test`, or a guard drop — not only
hush operations): from an uninitialized cell, any single operation installs
`husher_hook` and creates the cell; once the cell exists, no operation
changes the installed hook. -/
theorem hook_installed_once_first_op (s : ProcState) (op : Op) :
    (s.cell = none → (step s op).hook = PanicHook.husher ∧ (step s op).cell ≠ none) ∧
    (∀ o m, s.cell = some (o, m) → (step s op).hook = s.hook ∧ (step s op).cell ≠ none) := by
  constructor
  · intro h
    obtain ⟨m', h1, h2⟩ := step_cell_none s op h
    exact ⟨h2, by simp [h1]⟩
  · intro o m h
    obtain ⟨m', h1, h2⟩ := step_cell_some s op o m h
    exact ⟨h2, by simp [h1]⟩

/-- C8 amended witness: first-ever operation (a hush) installs the hook on a
fresh process; a later operation on an initialized cell leaves the hook
unchanged. -/
theorem hook_installed_once_first_op_witness :
    ((step freshState (Op.hush 0)).hook = PanicHook.husher ∧
      (step freshState (Op.hush 0)).cell ≠ none) ∧
    ((step { cell := some (PanicHook.default, ∅), hook := PanicHook.husher }
        (Op.hushTest 1)).hook = PanicHook.husher ∧
      (step { cell := some (PanicHook.default, ∅), hook := PanicHook.husher }
        (Op.hushTest 1)).cell ≠ none) :=
  ⟨(hook_installed_once_first_op freshState (Op.hush 0)).1 rfl,
   (hook_installed_once_first_op
      { cell := some (PanicHook.default, ∅), hook := PanicHook.husher }
      (Op.hushTest 1)).2 PanicHook.default ∅ rfl⟩

/-! ### Spin-wait lemmas -/

theorem spin_wait_none_of_forall (trace : Nat → Option CellContents)
    (h : ∀ t, trace t = none) :
    ∀ (fuel t0 : Nat), spin_wait trace fuel t0 = none := by
  intro fuel
  induction fuel with
  | zero => intro t0; rfl
  | succ n ih =>
    intro t0
    have hrec := ih (t0 + 1)
    simp [spin_wait, h t0, hrec]

theorem spin_wait_first (trace : Nat → Option CellContents) :
    ∀ (fuel t0 t : Nat) (r : CellContents), spin_wait trace fuel t0 = some (t, r) →
      trace t = some r ∧ t0 ≤ t ∧ ∀ u, t0 ≤ u → u < t → trace u = none := by
  intro fuel
  induction fuel with
  | zero =>
    intro t0 t r h
    exact absurd h (by simp [spin_wait])
  | succ n ih =>
    intro t0 t r h
    cases htr : trace t0 with
    | some v =>
      simp [spin_wait, htr] at h
      obtain ⟨h1, h2⟩ := h
      subst h1
      subst h2
      exact ⟨htr, Nat.le_refl t0, fun u hu1 hu2 => absurd hu2 (by omega)⟩
    | none =>
      simp [spin_wait, htr] at h
      obtain ⟨h1, h2, h3⟩ := ih (t0 + 1) t r h
      refine ⟨h1, by omega, ?_⟩
      intro u hu1 hu2
      rcases Nat.eq_or_lt_of_le hu1 with he | hl
      · rw [← he]
        exact htr
      · exact h3 u hl hu2

/-- C9: the hook never makes a hushed/not-hushed decision before the
registry cell exists.  If the cell is never observed initialized, the hook
produces no decision at all within any amount of spinning (it neither drops
nor forwards a report, and does not crash); if it does produce a decision,
then the cell was observed initialized at some spin step all of whose
predecessors observed the cell uninitialized, and the decision is exactly
the filtering decision of the hook body on the observed contents. -/
theorem husher_hook_blocks_until_init (trace : Nat → Option CellContents)
    (fuel : Nat) (tid : ThreadId) (info : PanicInfo) :
    ((∀ t, trace t = none) → husher_hook trace fuel tid info = none) ∧
    (∀ out, husher_hook trace fuel tid info = some out →
      ∃ t r, trace t = some r ∧ (∀ u, u < t → trace u = none) ∧
        out = husher_hook_body (some r) tid info) := by
  constructor
  · intro h
    unfold husher_hook
    rw [spin_wait_none_of_forall trace h fuel 0]
    rfl
  · intro out h
    unfold husher_hook at h
    cases hsw : spin_wait trace fuel 0 with
    | none =>
      rw [hsw] at h
      exact absurd h (by simp)
    | some p =>
      rcases p with ⟨t, r⟩
      rw [hsw] at h
      obtain ⟨h1, _, h3⟩ := spin_wait_first trace fuel 0 t r hsw
      refine ⟨t, r, h1, fun u hu => h3 u (Nat.zero_le u) hu, ?_⟩
      exact (Option.some.inj h).symm

/-- C9 witness: with a never-initialized cell the hook yields no decision;
with an initialized cell it yields exactly the body's filtering decision. -/
theorem husher_hook_blocks_until_init_witness :
    husher_hook (fun _ => none) 5 0 "x" = none ∧
    husher_hook (fun _ => some (PanicHook.default, (∅ : Finset ThreadId))) 1 0 "x"
      = some (husher_hook_body (some (PanicHook.default, (∅ : Finset ThreadId))) 0 "x") := by
  constructor
  · exact (husher_hook_blocks_until_init (fun _ => none) 5 0 "x").1 (fun _ => rfl)
  · obtain ⟨t, r, h1, h2, h3⟩ :=
      (husher_hook_blocks_until_init
        (fun _ => some (PanicHook.default, (∅ : Finset ThreadId))) 1 0 "x").2
        [HookEvent.call PanicHook.default "x"] (by decide)
    have hr : r = (PanicHook.default, (∅ : Finset ThreadId)) := (Option.some.inj h1).symm
    subst hr
    rw [← h3]
    decide
